import Mathlib

/-!
# docopt::value — a shallow embedding of `docopt_value.h` / `docopt_value.cpp`

The C++ type is a hand-written tagged union: a discriminant `kind_` next to a
`union Variant` with four members.  The embedding keeps that shape.

* `Kind` is the enum of the header.
* `Variant` is the storage of the union, one field per member.  Only the member
  selected by `kind_` is live; the other fields stand for whatever bytes the
  storage happens to hold.  Every function below reads a member only behind the
  same `kind_` test the source uses, and every theorem quantifies over all
  contents of the fields that are not live.
* `long` is an `Int`; `LONG_MIN`/`LONG_MAX` are those of an LP64 target and matter
  only to `std::stol`.  `std::string` is `String`, `std::vector<std::string>` is
  `List String`.
* A C++ function that may throw returns `Except Exception _`.
* Constructors take the prior contents `mem` of the storage they are run on,
  because `Variant::Variant()` initialises nothing.
-/

namespace docopt

/-- The enumeration `enum class Kind` of `docopt_value.h`. -/
inductive Kind where
  | Empty
  | Bool
  | Long
  | String
  | StringList
  deriving DecidableEq, Repr

/-- Storage of `union Variant`: one field per union member. -/
structure Variant where
  boolValue : Bool
  longValue : Int
  strValue : String
  strList : List String
  deriving DecidableEq, Repr

/-- The object `struct value`: the discriminant `kind_` and the storage `variant_`. -/
structure value where
  kind_ : Kind
  variant_ : Variant
  deriving DecidableEq, Repr

/-- The exception classes of `<stdexcept>` that this translation unit can raise, each with
its `what()` text. -/
inductive Exception where
  | runtime_error (what : String)
  | invalid_argument (what : String)
  | out_of_range (what : String)
  deriving DecidableEq, Repr

/-- The exception `std::bad_alloc`, raised when the copy of a `std::string` or of a
`std::vector` cannot obtain its memory. -/
inductive BadAlloc where
  | bad_alloc
  deriving DecidableEq, Repr

deriving instance DecidableEq for Except

namespace value

/-! ## Constructors (docopt_value.cpp 6-41) -/

/-- Constructor `value::value()`: `kind_` takes its default member initialiser `Kind::Empty`,
the storage is left as it was. -/
def ctor (mem : Variant) : value :=
  { kind_ := Kind.Empty, variant_ := mem }

/-- Constructor `value::value(bool v)`. -/
def ctor_bool (mem : Variant) (v : Bool) : value :=
  { kind_ := Kind.Bool, variant_ := { mem with boolValue := v } }

/-- Constructor `value::value(long v)`. -/
def ctor_long (mem : Variant) (v : Int) : value :=
  { kind_ := Kind.Long, variant_ := { mem with longValue := v } }

/-- Conversion `static_cast<long>(v)` for an `int v`: every `int` is a `long`, the conversion
keeps the number. -/
def static_cast_long (v : Int) : Int := v

/-- Constructor `value::value(int v)`, which delegates to `value(static_cast<long>(v))`. -/
def ctor_int (mem : Variant) (v : Int) : value :=
  ctor_long mem (static_cast_long v)

/-- Constructor `value::value(std::string v)`. -/
def ctor_string (mem : Variant) (v : String) : value :=
  { kind_ := Kind.String, variant_ := { mem with strValue := v } }

/-- Constructor `value::value(std::vector<std::string> v)`. -/
def ctor_string_list (mem : Variant) (v : List String) : value :=
  { kind_ := Kind.StringList, variant_ := { mem with strList := v } }

/-! ## Equality (docopt_value.cpp 254-283) -/

/-- Function `docopt::operator==`. -/
def operator_eq (v1 v2 : value) : Bool :=
  if v1.kind_ ≠ v2.kind_ then false
  else
    match v1.kind_ with
    | Kind.String => v1.variant_.strValue == v2.variant_.strValue
    | Kind.StringList => v1.variant_.strList == v2.variant_.strList
    | Kind.Bool => v1.variant_.boolValue == v2.variant_.boolValue
    | Kind.Long => v1.variant_.longValue == v2.variant_.longValue
    | Kind.Empty => true

end value

end docopt

/-- Function `::operator!=` of docopt_value.cpp:280, a function of the global namespace: its
definition is written `bool operator!=(...)`, without the `docopt::` qualifier that the
definition of `docopt::operator==` carries a few lines above it.  It is therefore not the
friend `docopt::operator!=` that docopt_value.h:68 declares, and that friend has no
definition.  The expression `v1 != v2` on two values finds the friend by argument-dependent
lookup, so it does not reach this body; only the qualified call `::operator!=(v1, v2)`
does. -/
def operator_ne (v1 v2 : docopt.value) : Bool :=
  !(docopt.value.operator_eq v1 v2)

namespace docopt

namespace value

/-! ## Copy, move, destruction, assignment (docopt_value.cpp 43-132)

An operation that can write to a second object returns the state of both objects after the
call: first the object constructed or assigned to, then the argument. -/

/-- Copy constructor `value::value(value const& other)`, run on storage `mem`.  The argument is
`const`; nothing is written to it. -/
def ctor_copy (mem : Variant) (other : value) : value × value :=
  match other.kind_ with
  | Kind.String =>
      ({ kind_ := other.kind_, variant_ := { mem with strValue := other.variant_.strValue } },
        other)
  | Kind.StringList =>
      ({ kind_ := other.kind_, variant_ := { mem with strList := other.variant_.strList } },
        other)
  | Kind.Bool =>
      ({ kind_ := other.kind_, variant_ := { mem with boolValue := other.variant_.boolValue } },
        other)
  | Kind.Long =>
      ({ kind_ := other.kind_, variant_ := { mem with longValue := other.variant_.longValue } },
        other)
  | Kind.Empty => ({ kind_ := other.kind_, variant_ := mem }, other)

/-- Move constructor `value::value(value&& other)`, run on storage `mem`.  `other.kind_` is only
read.  A moved-from `std::string` or `std::vector` is left empty, as the usual standard
libraries do; the scalar members are copied. -/
def ctor_move (mem : Variant) (other : value) : value × value :=
  match other.kind_ with
  | Kind.String =>
      ({ kind_ := other.kind_, variant_ := { mem with strValue := other.variant_.strValue } },
        { other with variant_ := { other.variant_ with strValue := "" } })
  | Kind.StringList =>
      ({ kind_ := other.kind_, variant_ := { mem with strList := other.variant_.strList } },
        { other with variant_ := { other.variant_ with strList := [] } })
  | Kind.Bool =>
      ({ kind_ := other.kind_, variant_ := { mem with boolValue := other.variant_.boolValue } },
        other)
  | Kind.Long =>
      ({ kind_ := other.kind_, variant_ := { mem with longValue := other.variant_.longValue } },
        other)
  | Kind.Empty => ({ kind_ := other.kind_, variant_ := mem }, other)

/-- Destructor `value::~value()`: ends the lifetime of the live member and hands back the raw
storage.  What the storage then holds is indeterminate; the model leaves the old contents in
place, the least favourable choice for whoever constructs the next object there. -/
def dtor (self : value) : Variant :=
  match self.kind_ with
  | Kind.String => self.variant_
  | Kind.StringList => self.variant_
  | Kind.Empty => self.variant_
  | Kind.Bool => self.variant_
  | Kind.Long => self.variant_

/-- Move assignment `value::operator=(value&& other)` for `other` a different object:
`this->~value(); new (this) value(std::move(other));`. -/
def assign_move (self other : value) : value × value :=
  let mem := dtor self
  ctor_move mem other

/-- Copy assignment `value::operator=(value const& other)` for `other` a different object:
`return *this = value{other};`.  `tmp_mem` is the storage of the temporary, which is destroyed
at the end of the statement. -/
def assign_copy (tmp_mem : Variant) (self other : value) : value × value :=
  let (tmp, other1) := ctor_copy tmp_mem other
  let (self1, tmp1) := assign_move self tmp
  let _ := dtor tmp1
  (self1, other1)

/-- Copy assignment `a = a`, where `other` is the object assigned to: the temporary is
copied from `*this` before `*this` is destroyed and rebuilt. -/
def assign_copy_self (tmp_mem : Variant) (self : value) : value :=
  let (tmp, self0) := ctor_copy tmp_mem self
  let (self1, tmp1) := assign_move self0 tmp
  let _ := dtor tmp1
  self1

/-- Copy constructor `value::value(value const& other)` with allocation failure made explicit:
`alloc_ok` says whether the copy of the `std::string` or `std::vector` member obtains its
memory.  The copies of the scalar members and of Empty allocate nothing. -/
def ctor_copy_alloc (alloc_ok : Bool) (mem : Variant) (other : value) :
    Except BadAlloc (value × value) :=
  match other.kind_ with
  | Kind.String =>
      if alloc_ok then Except.ok (ctor_copy mem other) else Except.error BadAlloc.bad_alloc
  | Kind.StringList =>
      if alloc_ok then Except.ok (ctor_copy mem other) else Except.error BadAlloc.bad_alloc
  | Kind.Bool => Except.ok (ctor_copy mem other)
  | Kind.Long => Except.ok (ctor_copy mem other)
  | Kind.Empty => Except.ok (ctor_copy mem other)

/-- Copy assignment `return *this = value{other};` with allocation failure made explicit.
The temporary `value{other}` is built before `operator=(value&&)` is entered; an exception
from its construction leaves the function at that point.  The result is the outcome together
with the state of `*this` and of `other` afterwards. -/
def assign_copy_alloc (alloc_ok : Bool) (tmp_mem : Variant) (self other : value) :
    Except BadAlloc Unit × value × value :=
  match ctor_copy_alloc alloc_ok tmp_mem other with
  | Except.error e => (Except.error e, self, other)
  | Except.ok (tmp, other1) =>
      let (self1, tmp1) := assign_move self tmp
      let _ := dtor tmp1
      (Except.ok (), self1, other1)

/-! ## Kind introspection (docopt_value.cpp 134-172) -/

/-- Member `value::kind`. -/
def kind (self : value) : Kind := self.kind_

/-- Conversion `value::operator bool`. -/
def operator_bool (self : value) : Bool := self.kind_ != Kind.Empty

/-- Member `value::isBool`. -/
def isBool (self : value) : Bool := self.kind_ == Kind.Bool

/-- Member `value::isString`. -/
def isString (self : value) : Bool := self.kind_ == Kind.String

/-- Member `value::isLong`. -/
def isLong (self : value) : Bool := self.kind_ == Kind.Long

/-- Member `value::isStringList`. -/
def isStringList (self : value) : Bool := self.kind_ == Kind.StringList

/-- Static member `value::kindAsString`.  The trailing `return "unknown"` of the source is
behind a switch over all five enumerators and is not reached for any `Kind`. -/
def kindAsString (kind : Kind) : String :=
  match kind with
  | Kind.Empty => "empty"
  | Kind.Bool => "bool"
  | Kind.Long => "long"
  | Kind.String => "string"
  | Kind.StringList => "string-list"

/-- Member `value::throwIfNotKind`. -/
def throwIfNotKind (self : value) (expected : Kind) : Except Exception Unit :=
  if self.kind_ = expected then Except.ok ()
  else
    let error := "Illegal cast to "
    let error := error ++ kindAsString expected
    let error := error ++ "; type is actually "
    let error := error ++ kindAsString self.kind_
    Except.error (Exception.runtime_error error)

end value

/-! ## Hashing (docopt_value.cpp 185-213) -/

/-- The hash functions `value::hash` calls and this file does not define: the
specialisations of `std::hash` it uses, the hash of the null pointer, and the template
`hash_combine`, declared at line 186, read as the function from the old seed and the
element to the new seed.  `size_t` is `Nat`. -/
structure StdHash where
  hash_string : String → Nat
  hash_size_t : Nat → Nat
  hash_bool : Bool → Nat
  hash_long : Int → Nat
  hash_nullptr : Nat
  hash_combine : Nat → String → Nat

namespace value

/-- Member `value::hash`.  The range-for over `strList` is the left fold of `hash_combine`. -/
def hash (H : StdHash) (self : value) : Nat :=
  match self.kind_ with
  | Kind.String => H.hash_string self.variant_.strValue
  | Kind.StringList =>
      let seed := H.hash_size_t self.variant_.strList.length
      self.variant_.strList.foldl (fun seed str => H.hash_combine seed str) seed
  | Kind.Bool => H.hash_bool self.variant_.boolValue
  | Kind.Long => H.hash_long self.variant_.longValue
  | Kind.Empty => H.hash_nullptr

end value

/-! ## `std::stol` (standard library, base 10, "C" locale)

`asLong` calls `stol(str, &pos)`, which is `std::stol` found through its `std::string`
argument.  It runs `strtol(str.c_str(), &end, 10)`, throws `std::invalid_argument` when nothing
was converted, `std::out_of_range` when `strtol` reports `ERANGE`, and otherwise stores
`end - str.c_str()` in `pos`.  The `what()` text of these two exceptions is the library's;
"stol" is what libstdc++ gives, and the theorems below do not depend on it.  Every character
`strtol` consumes is an ASCII character, so offsets counted in characters and in bytes agree
on the consumed part, and a character that is neither white space, sign nor digit (a
terminating NUL included) ends the scan. -/

/-- Largest `long` on an LP64 target. -/
def LONG_MAX : Int := 9223372036854775807

/-- Smallest `long` on an LP64 target. -/
def LONG_MIN : Int := -9223372036854775807 - 1

/-- Function `isspace` in the "C" locale: space, and the controls 9 to 13 (tab, newline,
vertical tab, form feed, carriage return). -/
def isspace (c : Char) : Bool :=
  c.toNat == 32 || (decide (9 ≤ c.toNat) && decide (c.toNat ≤ 13))

/-- Function `isdigit`: the characters 0 to 9. -/
def isdigit (c : Char) : Bool :=
  decide (48 ≤ c.toNat) && decide (c.toNat ≤ 57)

/-- The number a run of decimal digits denotes, most significant digit first. -/
def decimal (ds : List Char) : Nat :=
  ds.foldl (fun acc c => acc * 10 + (c.toNat - 48)) 0

/-- The optional sign `strtol` reads: whether it is a minus, how many characters it takes,
and the rest of the input. -/
def strtol_sign : List Char → Bool × Nat × List Char
  | [] => (false, 0, [])
  | c :: r =>
      if c = '-' then (true, 1, r)
      else if c = '+' then (false, 1, r)
      else (false, 0, c :: r)

/-- What `strtol` reports: the number returned, the offset of `*endptr` from the start of the
input, and whether `errno` was set to `ERANGE`. -/
structure StrtolResult where
  ret : Int
  endpos : Nat
  erange : Bool
  deriving DecidableEq, Repr

/-- Function `strtol(nptr, &endptr, 10)`: skip white space, read an optional sign, read the
longest run of digits.  With no digit nothing is converted and `endptr` is `nptr`.  A number
outside the range of `long` is clamped and reported through `ERANGE`. -/
def strtol (nptr : List Char) : StrtolResult :=
  let ws := nptr.takeWhile isspace
  let s1 := nptr.dropWhile isspace
  let (neg, signLen, s2) := strtol_sign s1
  let ds := s2.takeWhile isdigit
  if ds = [] then { ret := 0, endpos := 0, erange := false }
  else
    let mag : Int := (decimal ds : Nat)
    let n : Int := if neg then -mag else mag
    let endpos := ws.length + signLen + ds.length
    if n < LONG_MIN then { ret := LONG_MIN, endpos := endpos, erange := true }
    else if LONG_MAX < n then { ret := LONG_MAX, endpos := endpos, erange := true }
    else { ret := n, endpos := endpos, erange := false }

/-- Function `std::stol(str, &pos)` in base 10; on success the pair of the number and `pos`. -/
def stol (str : String) : Except Exception (Int × Nat) :=
  let r := strtol str.data
  if r.endpos = 0 then Except.error (Exception.invalid_argument "stol")
  else if r.erange then Except.error (Exception.out_of_range "stol")
  else Except.ok (r.ret, r.endpos)

namespace value

/-! ## Typed access (docopt_value.cpp 215-252) -/

/-- Member `value::asBool`. -/
def asBool (self : value) : Except Exception Bool :=
  match throwIfNotKind self Kind.Bool with
  | Except.error e => Except.error e
  | Except.ok () => Except.ok self.variant_.boolValue

/-- Member `value::asLong`.  An exception of `stol` is not caught and leaves the function. -/
def asLong (self : value) : Except Exception Int :=
  if self.kind_ = Kind.String then
    let str := self.variant_.strValue
    match stol str with
    | Except.error e => Except.error e
    | Except.ok (ret, pos) =>
        if pos ≠ str.length then
          Except.error (Exception.runtime_error (str ++ " contains non-numeric characters."))
        else Except.ok ret
  else
    match throwIfNotKind self Kind.Long with
    | Except.error e => Except.error e
    | Except.ok () => Except.ok self.variant_.longValue

/-- Member `value::asString`. -/
def asString (self : value) : Except Exception String :=
  match throwIfNotKind self Kind.String with
  | Except.error e => Except.error e
  | Except.ok () => Except.ok self.variant_.strValue

/-- Member `value::asStringList`. -/
def asStringList (self : value) : Except Exception (List String) :=
  match throwIfNotKind self Kind.StringList with
  | Except.error e => Except.error e
  | Except.ok () => Except.ok self.variant_.strList

end value

/-- Some contents for raw storage, used where a concrete object is built. -/
def mem0 : Variant :=
  { boolValue := true, longValue := 7, strValue := "junk", strList := ["left", "over"] }

/-! ## Equality: theorems -/

/-- C1, the part about `==`. `v1 == v2` holds exactly when the kinds agree and either the kind
is Empty or the live payloads agree under the payload type's own equality (lists element by
element, in order); values of different kinds are never equal, and an Empty value is not
equal to `value(false)`, `value(0L)`, `value("")` or the value of the empty list.  The claim's
last part, that `v1 != v2` holds exactly when `v1 == v2` does not, is not a property of the
code: `v1 != v2` names the friend `docopt::operator!=`, which is declared and never
defined. -/
theorem operator_eq_iff_kind_and_payload (v1 v2 : value) :
    (value.operator_eq v1 v2 = true ↔
      v1.kind_ = v2.kind_ ∧
        (v1.kind_ = Kind.Empty
          ∨ (v1.kind_ = Kind.Bool ∧ v1.variant_.boolValue = v2.variant_.boolValue)
          ∨ (v1.kind_ = Kind.Long ∧ v1.variant_.longValue = v2.variant_.longValue)
          ∨ (v1.kind_ = Kind.String ∧ v1.variant_.strValue = v2.variant_.strValue)
          ∨ (v1.kind_ = Kind.StringList
              ∧ v1.variant_.strList.length = v2.variant_.strList.length
              ∧ ∀ i : Nat, v1.variant_.strList[i]? = v2.variant_.strList[i]?)))
    ∧ (v1.kind_ ≠ v2.kind_ → value.operator_eq v1 v2 = false)
    ∧ (∀ m m' : Variant,
        value.operator_eq (value.ctor m) (value.ctor_bool m' false) = false
        ∧ value.operator_eq (value.ctor m) (value.ctor_long m' 0) = false
        ∧ value.operator_eq (value.ctor m) (value.ctor_string m' "") = false
        ∧ value.operator_eq (value.ctor m) (value.ctor_string_list m' []) = false) := by
  refine ⟨?_, ?_, ?_⟩
  · obtain ⟨k1, p1⟩ := v1
    obtain ⟨k2, p2⟩ := v2
    have hl : ∀ a b : List String,
        a = b ↔ (a.length = b.length ∧ ∀ i : Nat, a[i]? = b[i]?) := by
      intro a b
      constructor
      · rintro rfl; exact ⟨rfl, fun _ => rfl⟩
      · rintro ⟨_, h⟩; exact List.ext_getElem? h
    cases k1 <;> cases k2 <;> simp [value.operator_eq, hl]
  · intro h
    simp [value.operator_eq, h]
  · intro m m'
    simp [value.operator_eq, value.ctor, value.ctor_bool, value.ctor_long,
      value.ctor_string, value.ctor_string_list]

/-- What the body at docopt_value.cpp:280 computes when it is called as `::operator!=`: the
negation of `==`. -/
theorem global_operator_ne_eq_not (v1 v2 : value) :
    operator_ne v1 v2 = !(value.operator_eq v1 v2) :=
  rfl

/-! ## Hashing: theorems -/

/-- C3. Hash is consistent with equality: whatever the standard-library hashes and
`hash_combine` are, two values that compare equal with `==` have the same `hash()`. -/
theorem hash_eq_of_operator_eq (H : StdHash) (v1 v2 : value)
    (h : value.operator_eq v1 v2 = true) : value.hash H v1 = value.hash H v2 := by
  obtain ⟨k1, p1⟩ := v1
  obtain ⟨k2, p2⟩ := v2
  cases k1 <;> cases k2 <;> simp [value.operator_eq] at h <;> simp [value.hash, h]

/-- Witness for C3: two String values "ab" built on different storage. -/
theorem hash_eq_of_operator_eq_witness :
    value.operator_eq (value.ctor_string mem0 "ab")
        (value.ctor_string { mem0 with boolValue := false, longValue := 0 } "ab") = true
    ∧ value.hash ⟨String.length, id, fun b => cond b 1 0, Int.natAbs, 0,
          fun seed str => 31 * seed + str.length⟩ (value.ctor_string mem0 "ab")
        = value.hash ⟨String.length, id, fun b => cond b 1 0, Int.natAbs, 0,
          fun seed str => 31 * seed + str.length⟩
            (value.ctor_string { mem0 with boolValue := false, longValue := 0 } "ab") :=
  ⟨by decide, hash_eq_of_operator_eq _ _ _ (by decide)⟩

/-! ## Typed access: theorems -/

/-- The exception `throwIfNotKind` raises when the value has kind `actual` and kind `expected`
is asked for. -/
def kindMismatch (expected actual : Kind) : Exception :=
  Exception.runtime_error
    ("Illegal cast to " ++ value.kindAsString expected ++ "; type is actually "
      ++ value.kindAsString actual)

theorem throwIfNotKind_eq (v : value) (expected : Kind) :
    value.throwIfNotKind v expected =
      if v.kind_ = expected then Except.ok () else Except.error (kindMismatch expected v.kind_) := by
  simp [value.throwIfNotKind, kindMismatch]

theorem non_numeric_ne_kindMismatch (s : String) (expected actual : Kind) :
    Exception.runtime_error (s ++ " contains non-numeric characters.")
      ≠ kindMismatch expected actual := by
  intro h
  have h1 : s ++ " contains non-numeric characters."
      = "Illegal cast to " ++ value.kindAsString expected ++ "; type is actually "
        ++ value.kindAsString actual := by
    simpa [kindMismatch] using h
  have h2 := congrArg (fun t => t.data.getLast?) h1
  have h3 : (s ++ " contains non-numeric characters.").data.getLast? = some '.' := by
    simp [String.data_append]
  simp only [h3] at h2
  cases expected <;> cases actual <;> revert h2 <;> decide

theorem asLong_of_string (v : value) (h : v.kind_ = Kind.String) :
    value.asLong v =
      match stol v.variant_.strValue with
      | Except.error e => Except.error e
      | Except.ok (ret, pos) =>
          if pos ≠ v.variant_.strValue.length then
            Except.error
              (Exception.runtime_error
                (v.variant_.strValue ++ " contains non-numeric characters."))
          else Except.ok ret := by
  simp [value.asLong, h]

theorem asLong_of_not_string (v : value) (h : v.kind_ ≠ Kind.String) :
    value.asLong v =
      if v.kind_ = Kind.Long then Except.ok v.variant_.longValue
      else Except.error (kindMismatch Kind.Long v.kind_) := by
  unfold value.asLong
  simp only [h, if_false, throwIfNotKind_eq]
  by_cases hk : v.kind_ = Kind.Long <;> simp [hk]

theorem stol_error_cases (s : String) (e : Exception) (h : stol s = Except.error e) :
    e = Exception.invalid_argument "stol" ∨ e = Exception.out_of_range "stol" := by
  unfold stol at h
  simp only at h
  split at h
  · left; injection h with h; exact h.symm
  · split at h
    · right; injection h with h; exact h.symm
    · cases h

/-- C4. Every typed accessor is kind-checked.  `asBool`, `asString` and `asStringList` return
the live member when the kind is theirs and otherwise raise the kind-mismatch error naming
their kind and the actual kind; `asLong` returns the integer of a Long and raises the
kind-mismatch error on Empty, Bool and StringList; on a String `asLong` never raises a
kind-mismatch error.  `value("abc").asBool()` raises it and `value(true).asBool()` is true. -/
theorem accessors_kind_checked (v : value) :
    (value.asBool v =
      if v.kind_ = Kind.Bool then Except.ok v.variant_.boolValue
      else Except.error (kindMismatch Kind.Bool v.kind_))
    ∧ (value.asString v =
      if v.kind_ = Kind.String then Except.ok v.variant_.strValue
      else Except.error (kindMismatch Kind.String v.kind_))
    ∧ (value.asStringList v =
      if v.kind_ = Kind.StringList then Except.ok v.variant_.strList
      else Except.error (kindMismatch Kind.StringList v.kind_))
    ∧ (v.kind_ = Kind.Long → value.asLong v = Except.ok v.variant_.longValue)
    ∧ (v.kind_ = Kind.Empty ∨ v.kind_ = Kind.Bool ∨ v.kind_ = Kind.StringList →
        value.asLong v = Except.error (kindMismatch Kind.Long v.kind_))
    ∧ (v.kind_ = Kind.String →
        ∀ expected actual : Kind,
          value.asLong v ≠ Except.error (kindMismatch expected actual))
    ∧ (∀ m : Variant,
        value.asBool (value.ctor_string m "abc")
          = Except.error (kindMismatch Kind.Bool Kind.String)
        ∧ value.asBool (value.ctor_bool m true) = Except.ok true) := by
  refine ⟨?_, ?_, ?_, ?_, ?_, ?_, ?_⟩
  · unfold value.asBool
    rw [throwIfNotKind_eq]
    by_cases hk : v.kind_ = Kind.Bool <;> simp [hk]
  · unfold value.asString
    rw [throwIfNotKind_eq]
    by_cases hk : v.kind_ = Kind.String <;> simp [hk]
  · unfold value.asStringList
    rw [throwIfNotKind_eq]
    by_cases hk : v.kind_ = Kind.StringList <;> simp [hk]
  · intro hk
    rw [asLong_of_not_string v (by simp [hk])]
    simp [hk]
  · intro hk
    rw [asLong_of_not_string v (by rcases hk with hk | hk | hk <;> simp [hk])]
    rcases hk with hk | hk | hk <;> simp [hk]
  · intro hk expected actual
    rw [asLong_of_string v hk]
    cases hs : stol v.variant_.strValue with
    | error e =>
      rcases stol_error_cases _ _ hs with rfl | rfl <;> simp [kindMismatch]
    | ok r =>
      obtain ⟨ret, pos⟩ := r
      by_cases hp : pos = v.variant_.strValue.length
      · simp [hp]
      · simp only [ne_eq, hp, not_false_eq_true, if_true]
        intro hcontra
        injection hcontra with hcontra
        exact non_numeric_ne_kindMismatch _ _ _ hcontra
  · intro m
    constructor
    · unfold value.asBool
      rw [throwIfNotKind_eq]
      simp [value.ctor_string]
    · unfold value.asBool
      rw [throwIfNotKind_eq]
      simp [value.ctor_bool]

/-- Witness for C4: `asLong` on a Long, on a Bool and on a String. -/
theorem accessors_kind_checked_witness :
    value.asLong (value.ctor_long mem0 5) = Except.ok 5
    ∧ value.asLong (value.ctor_bool mem0 true)
        = Except.error (kindMismatch Kind.Long Kind.Bool)
    ∧ value.asLong (value.ctor_string mem0 "x")
        ≠ Except.error (kindMismatch Kind.Long Kind.String) :=
  ⟨(accessors_kind_checked (value.ctor_long mem0 5)).2.2.2.1 rfl,
    (accessors_kind_checked (value.ctor_bool mem0 true)).2.2.2.2.1 (Or.inr (Or.inl rfl)),
    (accessors_kind_checked (value.ctor_string mem0 "x")).2.2.2.2.2.1 rfl
      Kind.Long Kind.String⟩

/-! ## The coercion of text to `long`: theorems -/

/-- The claim's reading of a text against the base-10 integer grammar: `text` is white space
`ws`, then an optional sign `sign`, then a non-empty run of digits `ds` that is the longest
one, then the remainder `rest`.  `ws ++ sign ++ ds` is the longest valid numeric prefix, and
the text is an integer in its entirety when `rest` is empty. -/
structure NumericPrefix (text ws sign ds rest : List Char) : Prop where
  split : text = ws ++ (sign ++ (ds ++ rest))
  ws_space : ∀ c ∈ ws, isspace c = true
  sign_ok : sign = [] ∨ sign = ['+'] ∨ sign = ['-']
  ds_ne : ds ≠ []
  ds_digit : ∀ c ∈ ds, isdigit c = true
  longest : ∀ c ∈ rest.head?, isdigit c = false

/-- The integer that a sign and a run of decimal digits denote, by positional value:
the digits, least significant first, are the base-10 digits of the magnitude. -/
def denoted (sign ds : List Char) : Int :=
  if sign = ['-'] then -((Nat.ofDigits 10 (ds.reverse.map fun c => c.toNat - 48) : Nat) : Int)
  else ((Nat.ofDigits 10 (ds.reverse.map fun c => c.toNat - 48) : Nat) : Int)

theorem decimal_append_singleton (ds : List Char) (c : Char) :
    decimal (ds ++ [c]) = decimal ds * 10 + (c.toNat - 48) := by
  simp [decimal, List.foldl_append]

theorem decimal_eq_ofDigits (ds : List Char) :
    decimal ds = Nat.ofDigits 10 (ds.reverse.map fun c => c.toNat - 48) := by
  induction ds using List.reverseRecOn with
  | nil => simp [decimal]
  | append_singleton l a ih =>
    rw [decimal_append_singleton, ih]
    simp [Nat.ofDigits_cons]
    ring

theorem takeWhile_dropWhile_of_split {p : Char → Bool} (ws rest : List Char)
    (h1 : ∀ c ∈ ws, p c = true) (h2 : ∀ c ∈ rest.head?, p c = false) :
    (ws ++ rest).takeWhile p = ws ∧ (ws ++ rest).dropWhile p = rest := by
  have hr : rest.takeWhile p = [] ∧ rest.dropWhile p = rest := by
    cases rest with
    | nil => simp
    | cons c r =>
      have hc : p c = false := h2 c (by simp)
      simp [List.takeWhile_cons, List.dropWhile_cons, hc]
  rw [List.takeWhile_append_of_pos h1, List.dropWhile_append_of_pos h1, hr.1, hr.2]
  simp

theorem isdigit_not_isspace (c : Char) (h : isdigit c = true) : isspace c = false := by
  simp only [isdigit, Bool.and_eq_true, decide_eq_true_eq] at h
  simp only [isspace, Bool.or_eq_false_iff, beq_eq_false_iff_ne, Bool.and_eq_false_iff,
    decide_eq_false_iff_not]
  omega

theorem isdigit_not_sign (c : Char) (h : isdigit c = true) : c ≠ '-' ∧ c ≠ '+' := by
  constructor <;> rintro rfl <;> revert h <;> decide

/-- The first character after the white space of a numeric prefix is not white space. -/
theorem NumericPrefix.head_not_space {text ws sign ds rest : List Char}
    (h : NumericPrefix text ws sign ds rest) :
    ∀ c ∈ (sign ++ (ds ++ rest)).head?, isspace c = false := by
  obtain ⟨d, ds1, rfl⟩ := List.exists_cons_of_ne_nil h.ds_ne
  have hd : isdigit d = true := h.ds_digit d (by simp)
  rcases h.sign_ok with rfl | rfl | rfl
  · intro c hc
    simp at hc
    subst hc
    exact isdigit_not_isspace _ hd
  · intro c hc
    simp at hc
    subst hc
    decide
  · intro c hc
    simp at hc
    subst hc
    decide

/-- What `strtol_sign` returns on the text after the white space of a numeric prefix. -/
theorem NumericPrefix.strtol_sign_eq {text ws sign ds rest : List Char}
    (h : NumericPrefix text ws sign ds rest) :
    strtol_sign (sign ++ (ds ++ rest))
      = (decide (sign = ['-']), sign.length, ds ++ rest) := by
  obtain ⟨d, ds1, rfl⟩ := List.exists_cons_of_ne_nil h.ds_ne
  have hd : isdigit d = true := h.ds_digit d (by simp)
  obtain ⟨h1, h2⟩ := isdigit_not_sign d hd
  rcases h.sign_ok with rfl | rfl | rfl
  · simp [strtol_sign, h1, h2]
  · simp [strtol_sign]
  · simp [strtol_sign]

/-- On a text with a numeric prefix `strtol` converts exactly that prefix. -/
theorem strtol_of_numericPrefix {text ws sign ds rest : List Char}
    (h : NumericPrefix text ws sign ds rest) :
    strtol text =
      if denoted sign ds < LONG_MIN then
        { ret := LONG_MIN, endpos := ws.length + sign.length + ds.length, erange := true }
      else if LONG_MAX < denoted sign ds then
        { ret := LONG_MAX, endpos := ws.length + sign.length + ds.length, erange := true }
      else
        { ret := denoted sign ds, endpos := ws.length + sign.length + ds.length,
          erange := false } := by
  obtain ⟨hw1, hw2⟩ := takeWhile_dropWhile_of_split (p := isspace) ws (sign ++ (ds ++ rest))
    h.ws_space h.head_not_space
  obtain ⟨hd1, hd2⟩ := takeWhile_dropWhile_of_split (p := isdigit) ds rest
    h.ds_digit h.longest
  have hden : denoted sign ds
      = if decide (sign = ['-']) = true then -((decimal ds : Nat) : Int)
        else ((decimal ds : Nat) : Int) := by
    simp [denoted, decimal_eq_ofDigits]
  unfold strtol
  simp only [h.split, hw1, hw2, h.strtol_sign_eq, hd1, h.ds_ne, if_false, hden]

/-- When `strtol` finds a digit, the text has a numeric prefix. -/
theorem exists_numericPrefix_of_digits (text : List Char)
    (h : (strtol_sign (text.dropWhile isspace)).2.2.takeWhile isdigit ≠ []) :
    ∃ ws sign ds rest, NumericPrefix text ws sign ds rest := by
  have hsign : ∃ sign : List Char,
      text.dropWhile isspace = sign ++ (strtol_sign (text.dropWhile isspace)).2.2
        ∧ (sign = [] ∨ sign = ['+'] ∨ sign = ['-']) := by
    cases hl : text.dropWhile isspace with
    | nil => exact ⟨[], by simp [strtol_sign], Or.inl rfl⟩
    | cons c r =>
      by_cases h1 : c = '-'
      · exact ⟨['-'], by simp [strtol_sign, h1], Or.inr (Or.inr rfl)⟩
      · by_cases h2 : c = '+'
        · exact ⟨['+'], by simp [strtol_sign, h2], Or.inr (Or.inl rfl)⟩
        · exact ⟨[], by simp [strtol_sign, h1, h2], Or.inl rfl⟩
  obtain ⟨sign, hs, hsok⟩ := hsign
  refine ⟨text.takeWhile isspace, sign,
    (strtol_sign (text.dropWhile isspace)).2.2.takeWhile isdigit,
    (strtol_sign (text.dropWhile isspace)).2.2.dropWhile isdigit, ?_⟩
  refine ⟨?_, ?_, hsok, h, ?_, ?_⟩
  · rw [List.takeWhile_append_dropWhile, ← hs, List.takeWhile_append_dropWhile]
  · intro c hc
    exact (List.mem_takeWhile_imp hc)
  · intro c hc
    exact (List.mem_takeWhile_imp hc)
  · intro c hc
    have := List.head?_dropWhile_not isdigit (strtol_sign (text.dropWhile isspace)).2.2
    rw [Option.mem_def] at hc
    rw [hc] at this
    simpa using this

/-- When `strtol` finds no digit it converts nothing. -/
theorem strtol_of_no_digits (text : List Char)
    (h : (strtol_sign (text.dropWhile isspace)).2.2.takeWhile isdigit = []) :
    strtol text = { ret := 0, endpos := 0, erange := false } := by
  unfold strtol
  simp only [h, if_true]

theorem asLong_ctor_string (m : Variant) (s : String) :
    value.asLong (value.ctor_string m s) =
      match stol s with
      | Except.error e => Except.error e
      | Except.ok (ret, pos) =>
          if pos ≠ s.length then
            Except.error (Exception.runtime_error (s ++ " contains non-numeric characters."))
          else Except.ok ret :=
  asLong_of_string (value.ctor_string m s) rfl

theorem asLong_of_no_numericPrefix (m : Variant) (s : String)
    (h : ¬ ∃ ws sign ds rest, NumericPrefix s.data ws sign ds rest) :
    value.asLong (value.ctor_string m s) = Except.error (Exception.invalid_argument "stol") := by
  have hd : (strtol_sign (s.data.dropWhile isspace)).2.2.takeWhile isdigit = [] := by
    by_contra hne
    exact h (exists_numericPrefix_of_digits s.data hne)
  rw [asLong_ctor_string]
  simp [stol, strtol_of_no_digits s.data hd]

theorem asLong_of_numericPrefix (m : Variant) (s : String) {ws sign ds rest : List Char}
    (h : NumericPrefix s.data ws sign ds rest) :
    value.asLong (value.ctor_string m s) =
      if denoted sign ds < LONG_MIN ∨ LONG_MAX < denoted sign ds then
        Except.error (Exception.out_of_range "stol")
      else if rest ≠ [] then
        Except.error (Exception.runtime_error (s ++ " contains non-numeric characters."))
      else Except.ok (denoted sign ds) := by
  have hlen : s.length = ws.length + sign.length + ds.length + rest.length := by
    rw [String.length, h.split]
    simp only [List.length_append]
    omega
  have hpos : 0 < ds.length := List.length_pos.mpr h.ds_ne
  have hrest : rest.length = 0 ↔ rest = [] := List.length_eq_zero
  rw [asLong_ctor_string]
  unfold stol
  rw [strtol_of_numericPrefix h]
  by_cases h1 : denoted sign ds < LONG_MIN
  · have : ws.length + sign.length + ds.length ≠ 0 := by omega
    simp [h1, this]
  · by_cases h2 : LONG_MAX < denoted sign ds
    · have : ws.length + sign.length + ds.length ≠ 0 := by omega
      simp [h1, h2, this]
    · have : ws.length + sign.length + ds.length ≠ 0 := by omega
      by_cases h3 : rest = []
      · have h4 : ws.length + sign.length + ds.length = s.length := by
          rw [hlen, h3]; simp
        have h5 : s.length ≠ 0 := h4 ▸ this
        simp [h1, h2, h3, h4, h5]
      · have h4 : ws.length + sign.length + ds.length ≠ s.length := by
          have := mt hrest.mp h3
          omega
        simp [h1, h2, this, h3, h4]

/-- C5. For every String value with text `s`, `asLong()` returns `n` exactly when `s` is in
its entirety a base-10 signed integer (white space, optional sign, digits) that denotes `n`
and `n` is in the range of `long`; otherwise it raises a numeric coercion error:
`invalid_argument` from `stol` when `s` has no valid leading digits, `out_of_range` from `stol`
when the number of the longest numeric prefix is out of range, and a `runtime_error` whose
text is `s` followed by " contains non-numeric characters." when characters remain after that
prefix.  `"42"` gives 42; `"42x"`, `"abc"` and `""` raise. -/
theorem asLong_string_coercion (m : Variant) (s : String) :
    (∀ n : Int, value.asLong (value.ctor_string m s) = Except.ok n ↔
      ∃ ws sign ds, NumericPrefix s.data ws sign ds []
        ∧ n = denoted sign ds ∧ LONG_MIN ≤ n ∧ n ≤ LONG_MAX)
    ∧ ((¬ ∃ ws sign ds, NumericPrefix s.data ws sign ds []
          ∧ LONG_MIN ≤ denoted sign ds ∧ denoted sign ds ≤ LONG_MAX) →
        ∃ e, value.asLong (value.ctor_string m s) = Except.error e
          ∧ ((∃ what, e = Exception.invalid_argument what)
            ∨ (∃ what, e = Exception.out_of_range what)
            ∨ e = Exception.runtime_error (s ++ " contains non-numeric characters.")))
    ∧ ((¬ ∃ ws sign ds rest, NumericPrefix s.data ws sign ds rest) →
        ∃ what, value.asLong (value.ctor_string m s)
          = Except.error (Exception.invalid_argument what))
    ∧ (∀ ws sign ds rest, NumericPrefix s.data ws sign ds rest →
        denoted sign ds < LONG_MIN ∨ LONG_MAX < denoted sign ds →
        ∃ what, value.asLong (value.ctor_string m s)
          = Except.error (Exception.out_of_range what))
    ∧ (∀ ws sign ds rest, NumericPrefix s.data ws sign ds rest →
        LONG_MIN ≤ denoted sign ds ∧ denoted sign ds ≤ LONG_MAX → rest ≠ [] →
        value.asLong (value.ctor_string m s)
          = Except.error
              (Exception.runtime_error (s ++ " contains non-numeric characters.")))
    ∧ value.asLong (value.ctor_string m "42") = Except.ok 42
    ∧ value.asLong (value.ctor_string m "42x")
        = Except.error (Exception.runtime_error "42x contains non-numeric characters.")
    ∧ (∃ what, value.asLong (value.ctor_string m "abc")
        = Except.error (Exception.invalid_argument what))
    ∧ (∃ what, value.asLong (value.ctor_string m "")
        = Except.error (Exception.invalid_argument what)) := by
  have key : ∀ {ws sign ds rest}, NumericPrefix s.data ws sign ds rest →
      value.asLong (value.ctor_string m s) =
        if denoted sign ds < LONG_MIN ∨ LONG_MAX < denoted sign ds then
          Except.error (Exception.out_of_range "stol")
        else if rest ≠ [] then
          Except.error (Exception.runtime_error (s ++ " contains non-numeric characters."))
        else Except.ok (denoted sign ds) := fun h => asLong_of_numericPrefix m s h
  refine ⟨?_, ?_, ?_, ?_, ?_, ?_, ?_, ?_, ?_⟩
  · intro n
    constructor
    · intro hok
      by_cases hex : ∃ ws sign ds rest, NumericPrefix s.data ws sign ds rest
      · obtain ⟨ws, sign, ds, rest, hp⟩ := hex
        rw [key hp] at hok
        by_cases hr : denoted sign ds < LONG_MIN ∨ LONG_MAX < denoted sign ds
        · simp [hr] at hok
        · by_cases h3 : rest = []
          · subst h3
            simp [hr] at hok
            refine ⟨ws, sign, ds, hp, hok.symm, ?_, ?_⟩ <;> rw [← hok] <;> omega
          · simp [hr, h3] at hok
      · rw [asLong_of_no_numericPrefix m s hex] at hok
        cases hok
    · rintro ⟨ws, sign, ds, hp, rfl, hlo, hhi⟩
      rw [key hp]
      have hr : ¬ (denoted sign ds < LONG_MIN ∨ LONG_MAX < denoted sign ds) := by omega
      simp [hr]
  · intro hno
    by_cases hex : ∃ ws sign ds rest, NumericPrefix s.data ws sign ds rest
    · obtain ⟨ws, sign, ds, rest, hp⟩ := hex
      rw [key hp]
      by_cases hr : denoted sign ds < LONG_MIN ∨ LONG_MAX < denoted sign ds
      · exact ⟨Exception.out_of_range "stol", by simp [hr], Or.inr (Or.inl ⟨_, rfl⟩)⟩
      · by_cases h3 : rest = []
        · subst h3
          exact absurd ⟨ws, sign, ds, hp, by omega, by omega⟩ hno
        · exact ⟨_, by simp [hr, h3], Or.inr (Or.inr rfl)⟩
    · rw [asLong_of_no_numericPrefix m s hex]
      exact ⟨_, rfl, Or.inl ⟨_, rfl⟩⟩
  · intro hex
    exact ⟨_, asLong_of_no_numericPrefix m s hex⟩
  · intro ws sign ds rest hp hr
    rw [key hp]
    exact ⟨"stol", by simp [hr]⟩
  · intro ws sign ds rest hp hin h3
    rw [key hp]
    have hr : ¬ (denoted sign ds < LONG_MIN ∨ LONG_MAX < denoted sign ds) := by omega
    simp [hr, h3]
  · rw [asLong_ctor_string]; decide
  · rw [asLong_ctor_string]; decide
  · exact ⟨"stol", by rw [asLong_ctor_string]; decide⟩
  · exact ⟨"stol", by rw [asLong_ctor_string]; decide⟩

/-- Witness for C5: " -12x" has the numeric prefix " -12" with "x" left over and raises the
non-numeric error; "99999999999999999999" is a numeric prefix out of range and raises
`out_of_range`; "+7" is an integer in its entirety and gives 7. -/
theorem asLong_string_coercion_witness :
    (NumericPrefix " -12x".data " ".data "-".data "12".data "x".data
      ∧ value.asLong (value.ctor_string mem0 " -12x")
        = Except.error (Exception.runtime_error " -12x contains non-numeric characters."))
    ∧ (NumericPrefix "99999999999999999999".data [] [] "99999999999999999999".data []
      ∧ ∃ what, value.asLong (value.ctor_string mem0 "99999999999999999999")
        = Except.error (Exception.out_of_range what))
    ∧ (NumericPrefix "+7".data [] "+".data "7".data []
      ∧ value.asLong (value.ctor_string mem0 "+7") = Except.ok 7) :=
  ⟨⟨⟨rfl, by decide, by decide, by decide, by decide, by decide⟩,
      (asLong_string_coercion mem0 " -12x").2.2.2.2.1 " ".data "-".data "12".data "x".data
        ⟨rfl, by decide, by decide, by decide, by decide, by decide⟩
        (by decide) (by decide)⟩,
    ⟨⟨rfl, by decide, by decide, by decide, by decide, by decide⟩,
      (asLong_string_coercion mem0 "99999999999999999999").2.2.2.1 [] []
        "99999999999999999999".data []
        ⟨rfl, by decide, by decide, by decide, by decide, by decide⟩ (by decide)⟩,
    ⟨⟨rfl, by decide, by decide, by decide, by decide, by decide⟩,
      ((asLong_string_coercion mem0 "+7").1 7).mpr
        ⟨[], "+".data, "7".data,
          ⟨rfl, by decide, by decide, by decide, by decide, by decide⟩,
          by decide, by decide, by decide⟩⟩⟩

/-- C6. The header promises `std::invalid_argument` on a kind mismatch; the code raises
`std::runtime_error`.  On `value("abc")`, `asBool()` raises
`runtime_error("Illegal cast to bool; type is actually string")`, and no accessor called on a
value of another kind raises an `invalid_argument` with any text. -/
theorem kind_mismatch_raises_runtime_error :
    value.asBool (value.ctor_string mem0 "abc")
      = Except.error
          (Exception.runtime_error "Illegal cast to bool; type is actually string")
    ∧ (∀ what : String,
        value.asBool (value.ctor_string mem0 "abc")
          ≠ Except.error (Exception.invalid_argument what))
    ∧ (∀ what : String,
        value.asLong (value.ctor_bool mem0 true)
          ≠ Except.error (Exception.invalid_argument what))
    ∧ (∀ what : String,
        value.asString (value.ctor_long mem0 3)
          ≠ Except.error (Exception.invalid_argument what))
    ∧ (∀ what : String,
        value.asStringList (value.ctor mem0)
          ≠ Except.error (Exception.invalid_argument what)) := by
  refine ⟨by decide, ?_, ?_, ?_, ?_⟩ <;> intro what <;>
    simp [value.asBool, value.asLong, value.asString, value.asStringList,
      value.throwIfNotKind, value.ctor_string, value.ctor_bool, value.ctor_long, value.ctor]

/-- C7. Construction followed by the matching accessor is the identity, for lists of strings,
strings, booleans and longs; `value(int i)` is `value(static_cast<long>(i))`, compares equal
to it, and reads back as `i`. -/
theorem ctor_then_accessor_roundtrip (m : Variant) :
    (∀ l : List String, value.asStringList (value.ctor_string_list m l) = Except.ok l)
    ∧ (∀ s : String, value.asString (value.ctor_string m s) = Except.ok s)
    ∧ (∀ b : Bool, value.asBool (value.ctor_bool m b) = Except.ok b)
    ∧ (∀ n : Int, value.asLong (value.ctor_long m n) = Except.ok n)
    ∧ (∀ i : Int,
        value.ctor_int m i = value.ctor_long m (value.static_cast_long i)
        ∧ value.operator_eq (value.ctor_int m i) (value.ctor_long m (value.static_cast_long i))
            = true
        ∧ value.asLong (value.ctor_int m i) = Except.ok i) := by
  refine ⟨?_, ?_, ?_, ?_, ?_⟩
  · intro l
    simp [value.asStringList, value.throwIfNotKind, value.ctor_string_list]
  · intro s
    simp [value.asString, value.throwIfNotKind, value.ctor_string]
  · intro b
    simp [value.asBool, value.throwIfNotKind, value.ctor_bool]
  · intro n
    simp [value.asLong, value.throwIfNotKind, value.ctor_long]
  · intro i
    refine ⟨rfl, ?_, ?_⟩
    · simp [value.operator_eq, value.ctor_int, value.ctor_long]
    · simp [value.asLong, value.throwIfNotKind, value.ctor_int, value.ctor_long,
        value.static_cast_long]

/-! ## Kind introspection: theorems -/

/-- How many of `isBool()`, `isString()`, `isLong()`, `isStringList()` are true of `v`. -/
def isX_count (v : value) : Nat :=
  [value.isBool v, value.isString v, value.isLong v, value.isStringList v].count true

/-- C8 as stated fails for the default constructor: the value has kind Empty and none of the
four predicates is true, so it is not the case that exactly one is. -/
theorem default_ctor_has_no_isX :
    ¬ (value.kind (value.ctor mem0) = Kind.Empty ∧ isX_count (value.ctor mem0) = 1) := by
  decide

/-- C8 amended. Every constructor gives the kind it is for.  For the four typed constructors
exactly one of the predicates is true, the one of that kind; for the default constructor
(kind Empty) none of them is. -/
theorem ctor_kind_and_isX (m : Variant) :
    (value.kind (value.ctor m) = Kind.Empty ∧ isX_count (value.ctor m) = 0)
    ∧ (∀ b : Bool, value.kind (value.ctor_bool m b) = Kind.Bool
        ∧ isX_count (value.ctor_bool m b) = 1 ∧ value.isBool (value.ctor_bool m b) = true)
    ∧ (∀ n : Int, value.kind (value.ctor_long m n) = Kind.Long
        ∧ isX_count (value.ctor_long m n) = 1 ∧ value.isLong (value.ctor_long m n) = true)
    ∧ (∀ i : Int, value.kind (value.ctor_int m i) = Kind.Long
        ∧ isX_count (value.ctor_int m i) = 1 ∧ value.isLong (value.ctor_int m i) = true)
    ∧ (∀ s : String, value.kind (value.ctor_string m s) = Kind.String
        ∧ isX_count (value.ctor_string m s) = 1
        ∧ value.isString (value.ctor_string m s) = true)
    ∧ (∀ l : List String, value.kind (value.ctor_string_list m l) = Kind.StringList
        ∧ isX_count (value.ctor_string_list m l) = 1
        ∧ value.isStringList (value.ctor_string_list m l) = true) := by
  refine ⟨?_, ?_, ?_, ?_, ?_, ?_⟩ <;> intros <;>
    simp [isX_count, value.kind, value.isBool, value.isString, value.isLong,
      value.isStringList, value.ctor, value.ctor_bool, value.ctor_long, value.ctor_int,
      value.ctor_string, value.ctor_string_list]

/-- C9. The explicit boolean conversion is a presence check: `bool(v)` is true exactly when
the kind is not Empty.  The default-constructed value has kind Empty and converts to false;
every typed constructor gives a value that converts to true, `value(false)`, `value(0L)`, the
empty string and the empty list included. -/
theorem operator_bool_iff_not_empty (v : value) :
    (value.operator_bool v = true ↔ value.kind v ≠ Kind.Empty)
    ∧ (∀ m : Variant,
        value.kind (value.ctor m) = Kind.Empty ∧ value.operator_bool (value.ctor m) = false)
    ∧ (∀ (m : Variant) (b : Bool), value.operator_bool (value.ctor_bool m b) = true)
    ∧ (∀ (m : Variant) (n : Int), value.operator_bool (value.ctor_long m n) = true)
    ∧ (∀ (m : Variant) (i : Int), value.operator_bool (value.ctor_int m i) = true)
    ∧ (∀ (m : Variant) (s : String), value.operator_bool (value.ctor_string m s) = true)
    ∧ (∀ (m : Variant) (l : List String),
        value.operator_bool (value.ctor_string_list m l) = true)
    ∧ (∀ m : Variant,
        value.operator_bool (value.ctor_bool m false) = true
        ∧ value.operator_bool (value.ctor_long m 0) = true
        ∧ value.operator_bool (value.ctor_string m "") = true
        ∧ value.operator_bool (value.ctor_string_list m []) = true) := by
  refine ⟨?_, ?_, ?_, ?_, ?_, ?_, ?_, ?_⟩ <;> intros <;>
    simp [value.operator_bool, value.kind, value.ctor, value.ctor_bool, value.ctor_long,
      value.ctor_int, value.ctor_string, value.ctor_string_list]

/-! ## Copy: theorems -/

/-- The payload of a value as a reader sees it: the member selected by the kind, nothing for
Empty. -/
inductive Payload where
  | none
  | bool (b : Bool)
  | long (n : Int)
  | string (s : String)
  | stringList (l : List String)
  deriving DecidableEq, Repr

/-- The live payload of `v`. -/
def value.payload (v : value) : Payload :=
  match v.kind_ with
  | Kind.Empty => Payload.none
  | Kind.Bool => Payload.bool v.variant_.boolValue
  | Kind.Long => Payload.long v.variant_.longValue
  | Kind.String => Payload.string v.variant_.strValue
  | Kind.StringList => Payload.stringList v.variant_.strList

/-- C10. Copy law.  The copy-constructed value compares equal to `v` and has its kind and
live payload; after the copy assignment `a = v`, for any previous `a`, `a == v` holds and `a`
has the kind and live payload of `v`; `v` is the same after either operation.  The
self-assignment `a = a` leaves `a` equal to what it was. -/
theorem copy_law (m : Variant) (a v : value) :
    (value.operator_eq (value.ctor_copy m v).1 v = true
      ∧ (value.ctor_copy m v).1.kind_ = v.kind_
      ∧ (value.ctor_copy m v).1.payload = v.payload
      ∧ (value.ctor_copy m v).2 = v)
    ∧ (value.operator_eq (value.assign_copy m a v).1 (value.assign_copy m a v).2 = true
      ∧ (value.assign_copy m a v).1.kind_ = v.kind_
      ∧ (value.assign_copy m a v).1.payload = v.payload
      ∧ (value.assign_copy m a v).2 = v)
    ∧ (value.operator_eq (value.assign_copy_self m a) a = true
      ∧ (value.assign_copy_self m a).kind_ = a.kind_
      ∧ (value.assign_copy_self m a).payload = a.payload) := by
  obtain ⟨ka, pa⟩ := a
  obtain ⟨kv, pv⟩ := v
  refine ⟨?_, ?_, ?_⟩
  · cases kv <;>
      simp [value.ctor_copy, value.operator_eq, value.payload]
  · cases kv <;>
      simp [value.assign_copy, value.assign_move, value.ctor_move, value.dtor,
        value.ctor_copy, value.operator_eq, value.payload]
  · cases ka <;>
      simp [value.assign_copy_self, value.assign_move, value.ctor_move, value.dtor,
        value.ctor_copy, value.operator_eq, value.payload]

/-! ## Move: theorems -/

/-- C11. Move law.  The value move-constructed from `v` has the kind and the live payload `v`
had and compares equal to the original `v`; the same holds of the destination after the move
assignment `d = std::move(v)` from a different object `v`, for any previous `d`.  Nothing of
what `d` was before is observable afterwards: two destinations with different pasts agree on
`kind()`, the boolean conversion, the four `isX()` predicates, the four accessors, `hash()`
and on `==` against any value, on either side. -/
theorem move_law (m : Variant) (d v : value) :
    ((value.ctor_move m v).1.kind_ = v.kind_
      ∧ (value.ctor_move m v).1.payload = v.payload
      ∧ value.operator_eq (value.ctor_move m v).1 v = true)
    ∧ ((value.assign_move d v).1.kind_ = v.kind_
      ∧ (value.assign_move d v).1.payload = v.payload
      ∧ value.operator_eq (value.assign_move d v).1 v = true)
    ∧ (∀ d' : value,
        value.kind (value.assign_move d v).1 = value.kind (value.assign_move d' v).1
        ∧ value.operator_bool (value.assign_move d v).1
            = value.operator_bool (value.assign_move d' v).1
        ∧ value.isBool (value.assign_move d v).1 = value.isBool (value.assign_move d' v).1
        ∧ value.isString (value.assign_move d v).1
            = value.isString (value.assign_move d' v).1
        ∧ value.isLong (value.assign_move d v).1 = value.isLong (value.assign_move d' v).1
        ∧ value.isStringList (value.assign_move d v).1
            = value.isStringList (value.assign_move d' v).1
        ∧ value.asBool (value.assign_move d v).1 = value.asBool (value.assign_move d' v).1
        ∧ value.asLong (value.assign_move d v).1 = value.asLong (value.assign_move d' v).1
        ∧ value.asString (value.assign_move d v).1
            = value.asString (value.assign_move d' v).1
        ∧ value.asStringList (value.assign_move d v).1
            = value.asStringList (value.assign_move d' v).1
        ∧ (∀ H : StdHash,
            value.hash H (value.assign_move d v).1 = value.hash H (value.assign_move d' v).1)
        ∧ (∀ w : value,
            value.operator_eq (value.assign_move d v).1 w
              = value.operator_eq (value.assign_move d' v).1 w
            ∧ value.operator_eq w (value.assign_move d v).1
              = value.operator_eq w (value.assign_move d' v).1)) := by
  obtain ⟨kd, pd⟩ := d
  obtain ⟨kv, pv⟩ := v
  refine ⟨?_, ?_, ?_⟩
  · cases kv <;> simp [value.ctor_move, value.operator_eq, value.payload]
  · cases kv <;>
      simp [value.assign_move, value.dtor, value.ctor_move, value.operator_eq, value.payload]
  · rintro ⟨kd', pd'⟩
    refine ⟨?_, ?_, ?_, ?_, ?_, ?_, ?_, ?_, ?_, ?_, ?_, ?_⟩
    · cases kv <;> simp [value.assign_move, value.ctor_move, value.kind]
    · cases kv <;> simp [value.assign_move, value.ctor_move, value.operator_bool]
    · cases kv <;> simp [value.assign_move, value.ctor_move, value.isBool]
    · cases kv <;> simp [value.assign_move, value.ctor_move, value.isString]
    · cases kv <;> simp [value.assign_move, value.ctor_move, value.isLong]
    · cases kv <;> simp [value.assign_move, value.ctor_move, value.isStringList]
    · cases kv <;>
        simp [value.assign_move, value.ctor_move, value.asBool, value.throwIfNotKind]
    · cases kv <;>
        simp [value.assign_move, value.ctor_move, value.asLong, value.throwIfNotKind]
    · cases kv <;>
        simp [value.assign_move, value.ctor_move, value.asString, value.throwIfNotKind]
    · cases kv <;>
        simp [value.assign_move, value.ctor_move, value.asStringList, value.throwIfNotKind]
    · intro H
      cases kv <;> simp [value.assign_move, value.ctor_move, value.hash]
    · rintro ⟨kw, pw⟩
      constructor <;> cases kv <;> cases kw <;>
        simp [value.assign_move, value.ctor_move, value.operator_eq]

/-- C18. Moving from a value never changes the kind of the source: after move construction
or move assignment from `v` the source has the kind `v` had, so a moved-from String or
StringList is still a String or StringList and still converts to true; for the kinds Bool
and Long (and Empty) the source is wholly unchanged and compares equal to the destination. -/
theorem move_keeps_source_kind (m : Variant) (d v : value) :
    ((value.ctor_move m v).2.kind_ = v.kind_
      ∧ (value.assign_move d v).2.kind_ = v.kind_)
    ∧ (value.operator_bool (value.ctor_move m v).2 = value.operator_bool v
      ∧ value.operator_bool (value.assign_move d v).2 = value.operator_bool v)
    ∧ (v.kind_ = Kind.String ∨ v.kind_ = Kind.StringList →
        (value.ctor_move m v).2.kind_ ≠ Kind.Empty
        ∧ (value.assign_move d v).2.kind_ ≠ Kind.Empty
        ∧ value.operator_bool (value.ctor_move m v).2 = true
        ∧ value.operator_bool (value.assign_move d v).2 = true)
    ∧ (v.kind_ = Kind.Bool ∨ v.kind_ = Kind.Long ∨ v.kind_ = Kind.Empty →
        (value.ctor_move m v).2 = v
        ∧ (value.assign_move d v).2 = v
        ∧ value.operator_eq (value.ctor_move m v).2 (value.ctor_move m v).1 = true
        ∧ value.operator_eq (value.assign_move d v).2 (value.assign_move d v).1 = true) := by
  obtain ⟨kd, pd⟩ := d
  obtain ⟨kv, pv⟩ := v
  refine ⟨?_, ?_, ?_, ?_⟩
  · cases kv <;> simp [value.assign_move, value.ctor_move]
  · cases kv <;> simp [value.assign_move, value.ctor_move, value.operator_bool]
  · intro h
    cases kv <;> simp at h <;>
      simp [value.assign_move, value.ctor_move, value.operator_bool]
  · intro h
    cases kv <;> simp at h <;>
      simp [value.assign_move, value.ctor_move, value.operator_eq]

/-- Witness for C18: a moved-from String is still a String, a moved-from Long is unchanged. -/
theorem move_keeps_source_kind_witness :
    ((value.ctor_move mem0 (value.ctor_string mem0 "abc")).2.kind_ ≠ Kind.Empty
      ∧ value.operator_bool (value.assign_move (value.ctor mem0)
          (value.ctor_string mem0 "abc")).2 = true)
    ∧ ((value.assign_move (value.ctor_string mem0 "old") (value.ctor_long mem0 5)).2
        = value.ctor_long mem0 5) :=
  ⟨⟨((move_keeps_source_kind mem0 (value.ctor mem0) (value.ctor_string mem0 "abc")).2.2.1
        (Or.inl rfl)).1,
      ((move_keeps_source_kind mem0 (value.ctor mem0) (value.ctor_string mem0 "abc")).2.2.1
        (Or.inl rfl)).2.2.2⟩,
    ((move_keeps_source_kind mem0 (value.ctor_string mem0 "old")
      (value.ctor_long mem0 5)).2.2.2 (Or.inr (Or.inl rfl))).2.1⟩

/-! ## Kind names and the kind-mismatch error: theorems -/

/-- C14. `kindAsString` is the lookup empty, bool, long, string, string-list; no kind is
rendered as the fallback "unknown"; distinct kinds have distinct labels. -/
theorem kindAsString_lookup :
    value.kindAsString Kind.Empty = "empty"
    ∧ value.kindAsString Kind.Bool = "bool"
    ∧ value.kindAsString Kind.Long = "long"
    ∧ value.kindAsString Kind.String = "string"
    ∧ value.kindAsString Kind.StringList = "string-list"
    ∧ (∀ k : Kind, value.kindAsString k ∈ ["empty", "bool", "long", "string", "string-list"])
    ∧ (∀ k : Kind, value.kindAsString k ≠ "unknown")
    ∧ (∀ k1 k2 : Kind, value.kindAsString k1 = value.kindAsString k2 → k1 = k2) := by
  refine ⟨rfl, rfl, rfl, rfl, rfl, ?_, ?_, ?_⟩
  · intro k; cases k <;> decide
  · intro k; cases k <;> decide
  · intro k1 k2; cases k1 <;> cases k2 <;> decide

/-- Witness for C14: the labels of Long and String differ, and equal labels give equal
kinds. -/
theorem kindAsString_lookup_witness :
    value.kindAsString Kind.Long ≠ value.kindAsString Kind.String
    ∧ Kind.StringList = Kind.StringList :=
  ⟨by decide, kindAsString_lookup.2.2.2.2.2.2.2 Kind.StringList Kind.StringList rfl⟩

/-- C12. The kind-mismatch error carries both kind names: when kind `expected` is required of
a value of another kind, `throwIfNotKind` raises a `runtime_error` whose text is
"Illegal cast to ", the name of `expected`, "; type is actually ", the name of the value's
kind; when the kinds agree it raises nothing. -/
theorem throwIfNotKind_message (v : value) (expected : Kind) :
    (expected ≠ value.kind v →
      value.throwIfNotKind v expected
        = Except.error
            (Exception.runtime_error
              ("Illegal cast to " ++ value.kindAsString expected ++ "; type is actually "
                ++ value.kindAsString (value.kind v))))
    ∧ (value.kind v = expected → value.throwIfNotKind v expected = Except.ok ()) := by
  constructor
  · intro h
    have h' : ¬ v.kind_ = expected := fun e => h (by simp [value.kind, e])
    simp [value.throwIfNotKind, value.kind, h']
  · intro h
    have h' : v.kind_ = expected := h
    simp [value.throwIfNotKind, h']

/-- Witness for C12: asking a String for Bool, and asking a Bool for Bool. -/
theorem throwIfNotKind_message_witness :
    value.throwIfNotKind (value.ctor_string mem0 "abc") Kind.Bool
      = Except.error (Exception.runtime_error "Illegal cast to bool; type is actually string")
    ∧ value.throwIfNotKind (value.ctor_bool mem0 false) Kind.Bool = Except.ok () :=
  ⟨(throwIfNotKind_message (value.ctor_string mem0 "abc") Kind.Bool).1 (by decide),
    (throwIfNotKind_message (value.ctor_bool mem0 false) Kind.Bool).2 rfl⟩

/-! ## Copy assignment under allocation failure: theorems -/

/-- C13. Copy assignment has strong exception safety.  With the copy of the right-hand side
`v` an operation that may fail: when the copy fails the assignment fails with the same
exception and the left-hand side `a` is exactly what it was, as is `v`; when the copy
succeeds the assignment succeeds, `a == v` holds and `a` has the kind and live payload of
`v`.  The move-assignment step adds no failure: the assignment fails only when the copy
does.  A copy can fail only for a String or a StringList. -/
theorem assign_copy_strong_exception_safety (alloc_ok : Bool) (m : Variant) (a v : value) :
    (∀ e : BadAlloc, value.ctor_copy_alloc alloc_ok m v = Except.error e →
      (value.assign_copy_alloc alloc_ok m a v).1 = Except.error e
      ∧ (value.assign_copy_alloc alloc_ok m a v).2.1 = a
      ∧ (value.assign_copy_alloc alloc_ok m a v).2.2 = v)
    ∧ (∀ r : value × value, value.ctor_copy_alloc alloc_ok m v = Except.ok r →
      (value.assign_copy_alloc alloc_ok m a v).1 = Except.ok ()
      ∧ value.operator_eq (value.assign_copy_alloc alloc_ok m a v).2.1 v = true
      ∧ (value.assign_copy_alloc alloc_ok m a v).2.1.kind_ = v.kind_
      ∧ (value.assign_copy_alloc alloc_ok m a v).2.1.payload = v.payload
      ∧ (value.assign_copy_alloc alloc_ok m a v).2.2 = v)
    ∧ ((∃ e, (value.assign_copy_alloc alloc_ok m a v).1 = Except.error e)
        ↔ ∃ e, value.ctor_copy_alloc alloc_ok m v = Except.error e)
    ∧ ((∃ e, value.ctor_copy_alloc alloc_ok m v = Except.error e)
        ↔ alloc_ok = false ∧ (v.kind_ = Kind.String ∨ v.kind_ = Kind.StringList)) := by
  obtain ⟨ka, pa⟩ := a
  obtain ⟨kv, pv⟩ := v
  refine ⟨?_, ?_, ?_, ?_⟩
  · intro e he
    simp [value.assign_copy_alloc, he]
  · intro r hr
    cases kv <;> cases alloc_ok <;>
      simp [value.ctor_copy_alloc, value.ctor_copy] at hr <;> subst hr <;>
      simp [value.assign_copy_alloc, value.ctor_copy_alloc, value.ctor_copy,
        value.assign_move, value.ctor_move, value.dtor, value.operator_eq, value.payload]
  · cases kv <;> cases alloc_ok <;>
      simp [value.assign_copy_alloc, value.ctor_copy_alloc, value.ctor_copy]
  · cases kv <;> cases alloc_ok <;> simp [value.ctor_copy_alloc] <;>
      exact ⟨BadAlloc.bad_alloc, trivial⟩

/-- Witness for C13: copying the String "new" fails, and the left-hand side keeps "old";
copying it succeeds, and the left-hand side becomes equal to it. -/
theorem assign_copy_strong_exception_safety_witness :
    (value.ctor_copy_alloc false mem0 (value.ctor_string mem0 "new")
        = Except.error BadAlloc.bad_alloc
      ∧ (value.assign_copy_alloc false mem0 (value.ctor_string mem0 "old")
          (value.ctor_string mem0 "new")).2.1 = value.ctor_string mem0 "old")
    ∧ (value.ctor_copy_alloc true mem0 (value.ctor_string mem0 "new")
        = Except.ok (value.ctor_copy mem0 (value.ctor_string mem0 "new"))
      ∧ value.operator_eq
          (value.assign_copy_alloc true mem0 (value.ctor_string mem0 "old")
            (value.ctor_string mem0 "new")).2.1
          (value.ctor_string mem0 "new") = true) :=
  ⟨⟨rfl,
      ((assign_copy_strong_exception_safety false mem0 (value.ctor_string mem0 "old")
        (value.ctor_string mem0 "new")).1 BadAlloc.bad_alloc rfl).2.1⟩,
    ⟨rfl,
      ((assign_copy_strong_exception_safety true mem0 (value.ctor_string mem0 "old")
        (value.ctor_string mem0 "new")).2.1 _ rfl).2.1⟩⟩

/-! ## Hashing per kind and the predicates: theorems -/

/-- C16. `hash()` per kind: the string hash of the text of a String; for a StringList the
left fold of `hash_combine` over the elements in order, started from the `size_t` hash of the
number of elements; the bool hash of a Bool; the long hash of a Long; for Empty the hash of
the null pointer, one constant for every Empty value. -/
theorem hash_per_kind (H : StdHash) (v : value) :
    (v.kind_ = Kind.String → value.hash H v = H.hash_string v.variant_.strValue)
    ∧ (v.kind_ = Kind.StringList →
        value.hash H v
          = List.foldl H.hash_combine (H.hash_size_t v.variant_.strList.length)
              v.variant_.strList)
    ∧ (v.kind_ = Kind.Bool → value.hash H v = H.hash_bool v.variant_.boolValue)
    ∧ (v.kind_ = Kind.Long → value.hash H v = H.hash_long v.variant_.longValue)
    ∧ (v.kind_ = Kind.Empty → value.hash H v = H.hash_nullptr)
    ∧ (∀ (m : Variant) (s : String), value.hash H (value.ctor_string m s) = H.hash_string s)
    ∧ (∀ (m : Variant) (l : List String),
        value.hash H (value.ctor_string_list m l)
          = List.foldl H.hash_combine (H.hash_size_t l.length) l)
    ∧ (∀ (m : Variant) (e1 e2 e3 : String),
        value.hash H (value.ctor_string_list m []) = H.hash_size_t 0
        ∧ value.hash H (value.ctor_string_list m [e1, e2, e3])
          = H.hash_combine (H.hash_combine (H.hash_combine (H.hash_size_t 3) e1) e2) e3)
    ∧ (∀ (m : Variant) (b : Bool), value.hash H (value.ctor_bool m b) = H.hash_bool b)
    ∧ (∀ (m : Variant) (n : Int), value.hash H (value.ctor_long m n) = H.hash_long n)
    ∧ (∀ m m' : Variant,
        value.hash H (value.ctor m) = H.hash_nullptr
        ∧ value.hash H (value.ctor m) = value.hash H (value.ctor m')) := by
  refine ⟨?_, ?_, ?_, ?_, ?_, ?_, ?_, ?_, ?_, ?_, ?_⟩
  · intro h; simp [value.hash, h]
  · intro h; simp [value.hash, h]
  · intro h; simp [value.hash, h]
  · intro h; simp [value.hash, h]
  · intro h; simp [value.hash, h]
  · intro m s; simp [value.hash, value.ctor_string]
  · intro m l; simp [value.hash, value.ctor_string_list]
  · intro m e1 e2 e3; simp [value.hash, value.ctor_string_list]
  · intro m b; simp [value.hash, value.ctor_bool]
  · intro m n; simp [value.hash, value.ctor_long]
  · intro m m'; simp [value.hash, value.ctor]

/-- Witness for C16: the hash of the list ["a", "bc"] under a concrete choice of the
standard hashes. -/
theorem hash_per_kind_witness :
    (value.ctor_string_list mem0 ["a", "bc"]).kind_ = Kind.StringList
    ∧ value.hash ⟨String.length, fun n => n + 1, fun b => cond b 1 0, Int.natAbs, 0,
          fun seed str => 31 * seed + str.length⟩ (value.ctor_string_list mem0 ["a", "bc"])
        = 31 * (31 * (2 + 1) + 1) + 2 :=
  ⟨rfl,
    ((hash_per_kind ⟨String.length, fun n => n + 1, fun b => cond b 1 0, Int.natAbs, 0,
        fun seed str => 31 * seed + str.length⟩
      (value.ctor_string_list mem0 ["a", "bc"])).2.1 rfl).trans (by decide)⟩

/-- C17. The four `isX()` predicates are kind-equality tests; at most one of them is true;
none of them is true exactly when the kind is Empty, which is exactly when the explicit
boolean conversion is false. -/
theorem isX_kind_tests (v : value) :
    (value.isBool v = true ↔ value.kind v = Kind.Bool)
    ∧ (value.isString v = true ↔ value.kind v = Kind.String)
    ∧ (value.isLong v = true ↔ value.kind v = Kind.Long)
    ∧ (value.isStringList v = true ↔ value.kind v = Kind.StringList)
    ∧ isX_count v ≤ 1
    ∧ ¬ (value.isBool v = true ∧ value.isString v = true)
    ∧ ¬ (value.isBool v = true ∧ value.isLong v = true)
    ∧ ¬ (value.isBool v = true ∧ value.isStringList v = true)
    ∧ ¬ (value.isString v = true ∧ value.isLong v = true)
    ∧ ¬ (value.isString v = true ∧ value.isStringList v = true)
    ∧ ¬ (value.isLong v = true ∧ value.isStringList v = true)
    ∧ ((value.isBool v = false ∧ value.isString v = false ∧ value.isLong v = false
          ∧ value.isStringList v = false) ↔ value.kind v = Kind.Empty)
    ∧ (value.kind v = Kind.Empty ↔ value.operator_bool v = false) := by
  obtain ⟨k, p⟩ := v
  cases k <;>
    simp [value.isBool, value.isString, value.isLong, value.isStringList, value.kind,
      value.operator_bool, isX_count]

/-! ## The prefix grammar of the coercion: theorems

The decimal text of an integer `n` is `toString n`: a minus sign for a negative number, then
the digits of the magnitude without leading zeros. -/

theorem toString_int_data (n : Int) :
    (toString n).data
      = if n < 0 then '-' :: Nat.toDigits 10 n.natAbs else Nat.toDigits 10 n.natAbs := by
  cases n with
  | ofNat k =>
    have h : ¬ (Int.ofNat k < 0) := by simp
    rw [if_neg h]
    rfl
  | negSucc k =>
    rw [if_pos (Int.negSucc_lt_zero k)]
    rfl

theorem digitChar_of_lt_ten (k : Nat) (h : k < 10) :
    isdigit (Nat.digitChar k) = true ∧ (Nat.digitChar k).toNat - 48 = k := by
  interval_cases k <;> decide

/-- The digits `Nat.toDigitsCore` puts in front of `ds`: a non-empty run of decimal digits
that denotes `n`. -/
theorem toDigitsCore_spec (fuel : Nat) :
    ∀ (n : Nat) (ds : List Char), n < fuel →
      ∃ pre : List Char, Nat.toDigitsCore 10 fuel n ds = pre ++ ds ∧ pre ≠ []
        ∧ (∀ c ∈ pre, isdigit c = true) ∧ decimal pre = n := by
  induction fuel with
  | zero => intro n ds h; omega
  | succ fuel ih =>
    intro n ds h
    obtain ⟨hd1, hd2⟩ := digitChar_of_lt_ten (n % 10) (Nat.mod_lt _ (by decide))
    by_cases h0 : n / 10 = 0
    · refine ⟨[Nat.digitChar (n % 10)], ?_, by simp, ?_, ?_⟩
      · simp [Nat.toDigitsCore, h0]
      · intro c hc
        simp at hc
        subst hc
        exact hd1
      · have hn : n % 10 = n := Nat.mod_eq_of_lt (by omega)
        show 0 * 10 + ((Nat.digitChar (n % 10)).toNat - 48) = n
        rw [hd2]
        omega
    · obtain ⟨pre, hp1, _, hp3, hp4⟩ :=
        ih (n / 10) (Nat.digitChar (n % 10) :: ds) (by omega)
      refine ⟨pre ++ [Nat.digitChar (n % 10)], ?_, by simp, ?_, ?_⟩
      · simp [Nat.toDigitsCore, h0, hp1]
      · intro c hc
        rcases List.mem_append.mp hc with hc | hc
        · exact hp3 c hc
        · simp at hc
          subst hc
          exact hd1
      · rw [decimal_append_singleton, hp4, hd2]
        omega

/-- The digits of `Nat.toDigits 10 n` are decimal digits and denote `n`. -/
theorem toDigits_spec (n : Nat) :
    Nat.toDigits 10 n ≠ [] ∧ (∀ c ∈ Nat.toDigits 10 n, isdigit c = true)
      ∧ decimal (Nat.toDigits 10 n) = n := by
  obtain ⟨pre, h1, h2, h3, h4⟩ := toDigitsCore_spec (n + 1) n [] (Nat.lt_succ_self n)
  have h : Nat.toDigits 10 n = pre := by
    simp [Nat.toDigits, h1]
  rw [h]
  exact ⟨h2, h3, h4⟩

/-- The sign and digits of the decimal text of `n` form a numeric prefix of any text that
puts white space before it and something not starting with a digit after it, and the prefix
denotes `n`. -/
theorem numericPrefix_of_toString (n : Int) (ws rest : List Char)
    (hws : ∀ c ∈ ws, isspace c = true) (hrest : ∀ c ∈ rest.head?, isdigit c = false) :
    ∃ sign ds, ws ++ ((toString n).data ++ rest) = ws ++ (sign ++ (ds ++ rest))
      ∧ NumericPrefix (ws ++ ((toString n).data ++ rest)) ws sign ds rest
      ∧ denoted sign ds = n := by
  obtain ⟨h1, h2, h3⟩ := toDigits_spec n.natAbs
  by_cases hn : n < 0
  · refine ⟨['-'], Nat.toDigits 10 n.natAbs, ?_, ?_, ?_⟩
    · simp [toString_int_data, hn]
    · exact ⟨by simp [toString_int_data, hn], hws, Or.inr (Or.inr rfl), h1, h2, hrest⟩
    · simp only [denoted, if_true, ← decimal_eq_ofDigits, h3]
      omega
  · refine ⟨[], Nat.toDigits 10 n.natAbs, ?_, ?_, ?_⟩
    · simp [toString_int_data, hn]
    · exact ⟨by simp [toString_int_data, hn], hws, Or.inl rfl, h1, h2, hrest⟩
    · have hne : ¬ (([] : List Char) = ['-']) := by simp
      simp only [denoted, hne, if_false, ← decimal_eq_ofDigits, h3]
      omega

/-- The coercion on a text made of white space, the decimal text of an in-range `n`, and a
remainder that does not start with a digit. -/
theorem asLong_of_toString (m : Variant) (s : String) (n : Int) (ws rest : List Char)
    (hs : s.data = ws ++ ((toString n).data ++ rest))
    (hws : ∀ c ∈ ws, isspace c = true) (hrest : ∀ c ∈ rest.head?, isdigit c = false)
    (hlo : LONG_MIN ≤ n) (hhi : n ≤ LONG_MAX) :
    value.asLong (value.ctor_string m s) =
      if rest ≠ [] then
        Except.error (Exception.runtime_error (s ++ " contains non-numeric characters."))
      else Except.ok n := by
  obtain ⟨sign, ds, _, hp, hd⟩ := numericPrefix_of_toString n ws rest hws hrest
  rw [← hs] at hp
  rw [asLong_of_numericPrefix m s hp, hd]
  have hr : ¬ (n < LONG_MIN ∨ LONG_MAX < n) := by omega
  simp [hr]

/-- The coercion on a plus sign followed by the decimal text of an in-range `n ≥ 0`. -/
theorem asLong_of_plus_toString (m : Variant) (s : String) (n : Int)
    (hs : s.data = '+' :: (toString n).data) (h0 : 0 ≤ n) (hhi : n ≤ LONG_MAX) :
    value.asLong (value.ctor_string m s) = Except.ok n := by
  obtain ⟨h1, h2, h3⟩ := toDigits_spec n.natAbs
  have hn : ¬ n < 0 := by omega
  have hp : NumericPrefix s.data [] ['+'] (Nat.toDigits 10 n.natAbs) [] :=
    ⟨by simp [hs, toString_int_data, hn], by simp, Or.inr (Or.inl rfl), h1, h2, by simp⟩
  have hd : denoted ['+'] (Nat.toDigits 10 n.natAbs) = n := by
    have hne : ¬ (['+'] = ['-']) := by decide
    simp only [denoted, hne, if_false, ← decimal_eq_ofDigits, h3]
    omega
  rw [asLong_of_numericPrefix m s hp, hd]
  have hr : ¬ (n < LONG_MIN ∨ LONG_MAX < n) := by
    have : LONG_MIN ≤ 0 := by decide
    omega
  simp [hr]

/-- A text with no digit in it has no numeric prefix. -/
theorem no_numericPrefix_of_no_digit (text : List Char)
    (h : ∀ c ∈ text, isdigit c = false) :
    ¬ ∃ ws sign ds rest, NumericPrefix text ws sign ds rest := by
  rintro ⟨ws, sign, ds, rest, hp⟩
  obtain ⟨d, ds1, rfl⟩ := List.exists_cons_of_ne_nil hp.ds_ne
  have hd : isdigit d = true := hp.ds_digit d (by simp)
  have hmem : d ∈ text := by
    rw [hp.split]
    simp
  rw [h d hmem] at hd
  cases hd

theorem isspace_not_isdigit (c : Char) (h : isspace c = true) : isdigit c = false := by
  cases hd : isdigit c with
  | false => rfl
  | true =>
    rw [isdigit_not_isspace c hd] at h
    cases h

/-- C15. The coercion of `asLong()` on a String is "parse the longest valid integer prefix,
error if any character remains", the prefix being white space, an optional sign and one or
more decimal digits: with such a prefix in range the result is its number when nothing
remains and the non-numeric `runtime_error` when something remains; a prefix out of range
raises `out_of_range`; a text without such a prefix raises `invalid_argument`.  So for every
in-range `n` with decimal text `d = toString n`, `asLong` gives `n` on `d`, on "+" followed by
`d` when `n ≥ 0`, and on white space followed by `d`; it raises on `d` followed by white space
or by any other character that is not a digit; and it raises on a text that is only white
space or only a sign. -/
theorem asLong_longest_prefix_grammar (m : Variant) :
    (∀ (s : String) (ws sign ds rest : List Char), NumericPrefix s.data ws sign ds rest →
      (LONG_MIN ≤ denoted sign ds → denoted sign ds ≤ LONG_MAX → rest = [] →
        value.asLong (value.ctor_string m s) = Except.ok (denoted sign ds))
      ∧ (LONG_MIN ≤ denoted sign ds → denoted sign ds ≤ LONG_MAX → rest ≠ [] →
        value.asLong (value.ctor_string m s)
          = Except.error
              (Exception.runtime_error (s ++ " contains non-numeric characters.")))
      ∧ (denoted sign ds < LONG_MIN ∨ LONG_MAX < denoted sign ds →
        ∃ what, value.asLong (value.ctor_string m s)
          = Except.error (Exception.out_of_range what)))
    ∧ (∀ s : String, (¬ ∃ ws sign ds rest, NumericPrefix s.data ws sign ds rest) →
        ∃ what, value.asLong (value.ctor_string m s)
          = Except.error (Exception.invalid_argument what))
    ∧ (∀ n : Int, LONG_MIN ≤ n → n ≤ LONG_MAX →
        value.asLong (value.ctor_string m (toString n)) = Except.ok n
        ∧ (0 ≤ n → value.asLong (value.ctor_string m ("+" ++ toString n)) = Except.ok n)
        ∧ (∀ ws : List Char, (∀ c ∈ ws, isspace c = true) →
            value.asLong (value.ctor_string m (String.mk ws ++ toString n)) = Except.ok n)
        ∧ (∀ (c : Char) (rest : List Char), isdigit c = false →
            value.asLong (value.ctor_string m (toString n ++ String.mk (c :: rest)))
              = Except.error
                  (Exception.runtime_error
                    (toString n ++ String.mk (c :: rest)
                      ++ " contains non-numeric characters.")))
        ∧ (∀ (c : Char) (rest : List Char), isspace c = true →
            value.asLong (value.ctor_string m (toString n ++ String.mk (c :: rest)))
              = Except.error
                  (Exception.runtime_error
                    (toString n ++ String.mk (c :: rest)
                      ++ " contains non-numeric characters."))))
    ∧ (∀ ws : List Char, (∀ c ∈ ws, isspace c = true) →
        ∃ what, value.asLong (value.ctor_string m (String.mk ws))
          = Except.error (Exception.invalid_argument what))
    ∧ (∃ what, value.asLong (value.ctor_string m "+")
        = Except.error (Exception.invalid_argument what))
    ∧ (∃ what, value.asLong (value.ctor_string m "-")
        = Except.error (Exception.invalid_argument what)) := by
  have trailing : ∀ (n : Int), LONG_MIN ≤ n → n ≤ LONG_MAX →
      ∀ (c : Char) (rest : List Char), isdigit c = false →
        value.asLong (value.ctor_string m (toString n ++ String.mk (c :: rest)))
          = Except.error
              (Exception.runtime_error
                (toString n ++ String.mk (c :: rest)
                  ++ " contains non-numeric characters.")) := by
    intro n hlo hhi c rest hc
    rw [asLong_of_toString m _ n [] (c :: rest) (by simp [String.data_append]) (by simp)
      (by simpa using hc) hlo hhi]
    simp
  refine ⟨?_, ?_, ?_, ?_, ?_, ?_⟩
  · intro s ws sign ds rest hp
    refine ⟨?_, ?_, ?_⟩
    · intro hlo hhi hr
      rw [asLong_of_numericPrefix m s hp]
      have h : ¬ (denoted sign ds < LONG_MIN ∨ LONG_MAX < denoted sign ds) := by omega
      simp [h, hr]
    · intro hlo hhi hr
      rw [asLong_of_numericPrefix m s hp]
      have h : ¬ (denoted sign ds < LONG_MIN ∨ LONG_MAX < denoted sign ds) := by omega
      simp [h, hr]
    · intro h
      rw [asLong_of_numericPrefix m s hp]
      exact ⟨"stol", by simp [h]⟩
  · intro s hno
    exact ⟨_, asLong_of_no_numericPrefix m s hno⟩
  · intro n hlo hhi
    refine ⟨?_, ?_, ?_, trailing n hlo hhi, ?_⟩
    · rw [asLong_of_toString m _ n [] [] (by simp) (by simp) (by simp) hlo hhi]
      simp
    · intro h0
      exact asLong_of_plus_toString m _ n (by simp [String.data_append]) h0 hhi
    · intro ws hws
      rw [asLong_of_toString m _ n ws [] (by simp [String.data_append]) hws (by simp)
        hlo hhi]
      simp
    · intro c rest hc
      exact trailing n hlo hhi c rest (isspace_not_isdigit c hc)
  · intro ws hws
    exact ⟨_, asLong_of_no_numericPrefix m _
      (no_numericPrefix_of_no_digit _ (fun c hc => isspace_not_isdigit c (hws c hc)))⟩
  · exact ⟨_, asLong_of_no_numericPrefix m _ (no_numericPrefix_of_no_digit _ (by decide))⟩
  · exact ⟨_, asLong_of_no_numericPrefix m _ (no_numericPrefix_of_no_digit _ (by decide))⟩

/-- Witness for C15: the decimal text of -42 and of 17, with a plus sign, after a tab and a
space, and followed by a space. -/
theorem asLong_longest_prefix_grammar_witness :
    value.asLong (value.ctor_string mem0 (toString (-42 : Int))) = Except.ok (-42)
    ∧ value.asLong (value.ctor_string mem0 ("+" ++ toString (17 : Int))) = Except.ok 17
    ∧ value.asLong
        (value.ctor_string mem0 (String.mk [Char.ofNat 9, Char.ofNat 32] ++ toString (17 : Int)))
        = Except.ok 17
    ∧ value.asLong
        (value.ctor_string mem0 (toString (17 : Int) ++ String.mk [Char.ofNat 32]))
        = Except.error (Exception.runtime_error "17  contains non-numeric characters.")
    ∧ (NumericPrefix "007x".data [] [] "007".data "x".data
      ∧ value.asLong (value.ctor_string mem0 "007x")
        = Except.error (Exception.runtime_error "007x contains non-numeric characters.")) :=
  ⟨((asLong_longest_prefix_grammar mem0).2.2.1 (-42) (by decide) (by decide)).1,
    ((asLong_longest_prefix_grammar mem0).2.2.1 17 (by decide) (by decide)).2.1 (by decide),
    ((asLong_longest_prefix_grammar mem0).2.2.1 17 (by decide) (by decide)).2.2.1
      [Char.ofNat 9, Char.ofNat 32] (by decide),
    ((asLong_longest_prefix_grammar mem0).2.2.1 17 (by decide) (by decide)).2.2.2.2
      (Char.ofNat 32) [] (by decide),
    ⟨rfl, by decide, by decide, by decide, by decide, by decide⟩,
    ((asLong_longest_prefix_grammar mem0).1 "007x" [] [] "007".data "x".data
      ⟨rfl, by decide, by decide, by decide, by decide, by decide⟩).2.1
      (by decide) (by decide) (by decide)⟩

end docopt
